import Mathlib

/-!
Verification of the `Computational-Astrophysics` repository
(`src/Radiation/scaling.py` and `src/Radiation/images.py`).

The Python code is shallowly embedded below.  Machine floats are idealised
as real numbers; a Python `ZeroDivisionError` is modelled by an
`Except.error` result, produced by the fallible division `pydiv`, so that
the order in which the source performs its divisions is preserved.
-/

/-! ## The physical-constants tables (scaling.py, lines 3-53)

Each Python class body is a record of numeric constants.  Attributes that
the class body computes from other attributes (`G`, `AU`, `m_p`, `pc`,
`kyr`, `Myr`) are modelled as functions of the record, with the exact
defining expressions of the source. -/

structure ConstTable where
  name : String
  m_Earth : ℝ
  m_Sun : ℝ
  r_Earth : ℝ
  grav : ℝ
  yr : ℝ
  au : ℝ
  mu : ℝ
  m_u : ℝ
  k_B : ℝ
  h_P : ℝ
  e : ℝ
  c : ℝ
  Stefan : ℝ
  kms : ℝ
  Angstrom : ℝ
  micron : ℝ

/-- `G = grav` (scaling.py line 9). -/
def ConstTable.G (T : ConstTable) : ℝ := T.grav

/-- `AU = au` (scaling.py line 12). -/
def ConstTable.AU (T : ConstTable) : ℝ := T.au

/-- `m_p = m_u` (scaling.py line 15). -/
def ConstTable.m_p (T : ConstTable) : ℝ := T.m_u

/-- `pc = 180./np.pi*3600.*au` (scaling.py line 21). -/
noncomputable def ConstTable.pc (T : ConstTable) : ℝ := 180 / Real.pi * 3600 * T.au

/-- `kyr = 1e3*yr` (scaling.py line 22). -/
def ConstTable.kyr (T : ConstTable) : ℝ := 1e3 * T.yr

/-- `Myr = 1e6*yr` (scaling.py line 23). -/
def ConstTable.Myr (T : ConstTable) : ℝ := 1e6 * T.yr

/-- The `CGS` table (scaling.py lines 3-25). -/
def CGS : ConstTable :=
  { name := "CGS"
    m_Earth := 5.972e27
    m_Sun := 1.989e33
    r_Earth := 6.371e8
    grav := 6.67430e-8
    yr := 3.156e+7
    au := 1.498e+13
    mu := 2.4
    m_u := 1.6726e-24
    k_B := 1.3807e-16
    h_P := 6.62606e-27
    e := 4.8032e-10
    c := 2.9979e10
    Stefan := 5.670374419e-5
    kms := 1e5
    Angstrom := 1e-8
    micron := 1e-4 }

/-- The `MKS` table (scaling.py lines 27-49). -/
def MKS : ConstTable :=
  { name := "MKS"
    m_Earth := 5.972e24
    m_Sun := 1.989e30
    r_Earth := 6.371e6
    grav := 6.67430e-11
    yr := 3.156e+7
    au := 1.498e+11
    mu := 2.4
    m_u := 1.6726e-27
    k_B := 1.3807e-23
    h_P := 6.62606e-34
    e := 1.6022e-19
    c := 2.9979e8
    Stefan := 5.670374419e-8
    kms := 1e3
    Angstrom := 1e-10
    micron := 1e-6 }

/-- `class SI(MKS): name = 'SI'` (scaling.py lines 51-52). -/
def SI : ConstTable := { MKS with name := "SI" }

/-! ## The `scaling` class (scaling.py, lines 55-137) -/

/-- The `system` argument of `scaling.__init__`: either a constants-table
object or a string naming one. -/
inductive SystemArg where
  | table (tbl : ConstTable)
  | str (s : String)

/-- Table-name resolution (scaling.py lines 67-73).  The source compares
against the exact strings `'cgs'`/`'CGS'`, `'mks'`/`'MKS'`, `'si'`/`'SI'`;
any other string is left unchanged (and then every later attribute access
on it raises `AttributeError`). -/
def resolveSystem : SystemArg → SystemArg
  | .str s =>
    if s = "cgs" ∨ s = "CGS" then .table CGS
    else if s = "mks" ∨ s = "MKS" then .table MKS
    else if s = "si" ∨ s = "SI" then .table SI
    else .str s
  | .table tbl => .table tbl

/-- Python float division: raises `ZeroDivisionError` on a zero divisor. -/
noncomputable def pydiv (a b : ℝ) : Except String ℝ :=
  if b = 0 then .error "ZeroDivisionError" else .ok (a / b)

/-- `[i>0 for i in inputs].count(True)` for `inputs = [l,m,t,D,v]`
(scaling.py lines 87-88). -/
noncomputable def countPos (l m t D v : ℝ) : ℕ :=
  (if 0 < l then 1 else 0) + (if 0 < m then 1 else 0) + (if 0 < t then 1 else 0) +
    (if 0 < D then 1 else 0) + (if 0 < v then 1 else 0)

/-- The validation error message (scaling.py lines 93-94). -/
def valMsg (n : ℕ) : String :=
  "exactly 3 input values must be specified (there " ++
    (if n = 1 then "was " else "were ") ++ toString n ++ ")"

/-- The `verbose > 2` diagnostic line (scaling.py lines 91-92). -/
def countLog (n : ℕ) : String :=
  "there " ++ (if n = 1 then "is " else "are ") ++ toString n ++ " input value" ++
    (if 1 < n then "s" else "")

/-- Placeholder for the `verbose > 1` dump `print(vars(self))`
(scaling.py line 137); its exact text is diagnostic only. -/
def varsLog : String := "vars(self)"

/-- `AttributeError` raised when a table attribute is accessed on a string
that no table name matched. -/
def attrErr : String := "AttributeError"

/-- The velocity fill-in step (scaling.py lines 104-110).  Takes the local
variables `l`, `t`, `v` and returns the updated attributes
`(self.l, self.t, self.v)`. -/
noncomputable def fillVelocity (l t v : ℝ) : Except String (ℝ × ℝ × ℝ) :=
  if 0 < v then
    if l = 0 then .ok (v * t, t, v)
    else
      match pydiv l v with
      | .error msg => .error msg
      | .ok q => .ok (l, q, v)
  else
    match pydiv l t with
    | .error msg => .error msg
    | .ok q => .ok (l, t, q)

/-- `(m/D)**(1/3)` (scaling.py line 117), idealised as the real 1/3 power. -/
noncomputable def pyCbrt (x : ℝ) : ℝ := Real.rpow x (1 / 3)

/-- The density fill-in step (scaling.py lines 113-119).  The source tests
and combines the *local* variables `l`, `m`, `D` (the original arguments),
not the updated attributes; only the attribute `self.l` (here `sl`) is
carried along, to be kept or overwritten.  Returns the updated
`(self.l, self.m, self.D)`. -/
noncomputable def fillDensity (l m D sl : ℝ) : Except String (ℝ × ℝ × ℝ) :=
  if 0 < D then
    if m = 0 then .ok (sl, D * l ^ 3, D)
    else
      match pydiv m D with
      | .error msg => .error msg
      | .ok q => .ok (pyCbrt q, m, D)
  else
    match pydiv m (l ^ 3) with
    | .error msg => .error msg
    | .ok q => .ok (sl, m, q)

/-- The attributes a successfully constructed `scaling` object carries
(scaling.py lines 98-136). -/
structure scaling where
  system : ConstTable
  l : ℝ
  m : ℝ
  t : ℝ
  D : ℝ
  v : ℝ
  P : ℝ
  e : ℝ
  E : ℝ
  mu : ℝ
  T : ℝ
  G : ℝ
  Stefan : ℝ
  h_P : ℝ
  k_B : ℝ
  c : ℝ
  m_u : ℝ

/-- The body of `scaling.__init__` after validation, for a resolved table
(scaling.py lines 98-136): the two fill-in steps, the canonical recompute
`self.m = self.D*self.l**3` (line 125), the derived quantities, and the six
rescaled constants of nature, with every division performed in source
order. -/
noncomputable def scalingCore (system : ConstTable) (l m t D v mu : ℝ) :
    Except String scaling :=
  match fillVelocity l t v with
  | .error msg => .error msg
  | .ok (sl, st, sv) =>
    match fillDensity l m D sl with
    | .error msg => .error msg
    | .ok (sl, _sm, sD) =>
      -- line 125: self.m = self.D*self.l**3 (overwrites the fill-in value)
      -- line 130: self.T = mu*(system.m_u)/(system.k_B) * self.v**2
      match pydiv (mu * system.m_u) system.k_B with
      | .error msg => .error msg
      | .ok qT =>
        match pydiv system.Stefan (sD * sv ^ 2 * sv) with
        | .error msg => .error msg
        | .ok qStefan =>
          match pydiv system.h_P (st * (sD * sl ^ 3 * sv ^ 2)) with
          | .error msg => .error msg
          | .ok qhP =>
            match pydiv system.k_B (sD * sl ^ 3 * sv ^ 2) with
            | .error msg => .error msg
            | .ok qkB =>
              match pydiv system.c sv with
              | .error msg => .error msg
              | .ok qc =>
                match pydiv system.m_u (sD * sl ^ 3) with
                | .error msg => .error msg
                | .ok qmu =>
                  .ok { system := system
                        l := sl
                        m := sD * sl ^ 3
                        t := st
                        D := sD
                        v := sv
                        P := sD * sv ^ 2
                        e := sD * sl ^ 3 * sv ^ 2
                        E := sD * sv ^ 2
                        mu := mu
                        T := qT * sv ^ 2
                        G := system.G * sD * st ^ 2
                        Stefan := qStefan
                        h_P := qhP
                        k_B := qkB
                        c := qc
                        m_u := qmu }

/-- The diagnostic lines printed before validation when the table resolved
(scaling.py lines 76-77 and 91-92). -/
def initLog (tbl : ConstTable) (verbose : ℤ) (n : ℕ) : List String :=
  (if 1 ≤ verbose then ["using " ++ tbl.name ++ " units"] else []) ++
    (if 3 ≤ verbose then [countLog n] else [])

/-- `scaling.__init__` (scaling.py lines 64-137) for numeric inputs,
returning the constructed object (or the raised/printed error) together
with the list of diagnostic lines printed.

When the table name did not resolve, Python keeps the string: a
`verbose > 0` call then raises `AttributeError` at `system.name`
(line 77); otherwise the failure surfaces at the first table-attribute
access after the fill-in steps (`system.m_u`, line 130) — unless
validation already failed, which yields the printed validation message
with no exception. -/
noncomputable def scalingInitResolved (system : SystemArg) (l m t D v mu : ℝ)
    (verbose : ℤ) : Except String scaling × List String :=
  match system with
  | .str _ =>
    if 1 ≤ verbose then (.error attrErr, [])
    else if countPos l m t D v ≠ 3 then
      (.error (valMsg (countPos l m t D v)), [valMsg (countPos l m t D v)])
    else
      match fillVelocity l t v with
      | .error msg => (.error msg, [])
      | .ok (sl, _, _) =>
        match fillDensity l m D sl with
        | .error msg => (.error msg, [])
        | .ok _ => (.error attrErr, [])
  | .table tbl =>
    if countPos l m t D v ≠ 3 then
      (.error (valMsg (countPos l m t D v)),
        initLog tbl verbose (countPos l m t D v) ++ [valMsg (countPos l m t D v)])
    else
      match scalingCore tbl l m t D v mu with
      | .error msg => (.error msg, initLog tbl verbose (countPos l m t D v))
      | .ok s =>
        (.ok s, initLog tbl verbose (countPos l m t D v) ++
          (if 2 ≤ verbose then [varsLog] else []))

noncomputable def scalingInitV (system0 : SystemArg) (l m t D v mu : ℝ)
    (verbose : ℤ) : Except String scaling × List String :=
  scalingInitResolved (resolveSystem system0) l m t D v mu verbose

/-! ## The display helpers (images.py, lines 4-25) -/

/-- A Python value that can be passed as the `title` argument of `imshows`:
a single string, a Python list of strings, or a 1-D NumPy string array. -/
inductive PyVal where
  | str (s : String)
  | list (xs : List String)
  | arr (xs : List String)
  deriving DecidableEq

/-- The per-panel title choice (images.py lines 21-24): only a NumPy
array is indexed (`type(title) is np.ndarray`); out-of-range indexing
raises `IndexError`; every other value (a string, but also e.g. a Python
list) is passed through whole. -/
def panelTitle (title : PyVal) (i : ℕ) : Except String PyVal :=
  match title with
  | .arr xs =>
    match xs[i]? with
    | some sI => .ok (.str sI)
    | none => .error "IndexError"
  | other => .ok other

/-- One `pl.subplot(rows, cols, 1+i); imshow(f[i,:,:], t)` call of the
loop in `imshows` (images.py lines 19-25): panel `panel` of the stack is
rendered at subplot position `pos` with title `title`. -/
structure PanelRender where
  pos : ℕ
  panel : ℕ
  title : PyVal
  deriving DecidableEq

/-- The loop `for i in range(n)` of `imshows` (images.py lines 19-25),
failing at the first panel whose title indexing raises. -/
def buildPanels (title : PyVal) : ℕ → Except String (List PanelRender)
  | 0 => .ok []
  | n + 1 =>
    match buildPanels title n with
    | .error msg => .error msg
    | .ok ps =>
      match panelTitle title n with
      | .error msg => .error msg
      | .ok tn => .ok (ps ++ [{ pos := 1 + n, panel := n, title := tn }])

/-- The grid produced by the stack branch of `imshows`: row count,
column count, the `figsize=(cols*5, rows*4)` dimensions and the rendered
panels. -/
structure StackRender where
  rows : ℤ
  cols : ℤ
  figW : ℤ
  figH : ℤ
  panels : List PanelRender
  deriving DecidableEq

/-- The `f.ndim != 2` branch of `imshows` (images.py lines 14-25) for a 3-D
stack whose leading dimension is `n`:
`rows = 1+(n-1)//3`, `cols = min(n,3)` (Python `//` is floor division,
`Int.fdiv`), `figsize=(cols*5, rows*4)`, and one panel per `i < n` at
subplot position `1+i`. -/
def imshowsStack (n : ℕ) (title : PyVal) : Except String StackRender :=
  match buildPanels title n with
  | .error msg => .error msg
  | .ok ps =>
    .ok { rows := 1 + Int.fdiv ((n : ℤ) - 1) 3
          cols := min (n : ℤ) 3
          figW := min (n : ℤ) 3 * 5
          figH := (1 + Int.fdiv ((n : ℤ) - 1) 3) * 4
          panels := ps }

/-- Matplotlib's numbering of subplot cells: position `pos` (1-based,
row-major) in a grid with `cols` columns sits in this 1-based
`(row, column)` cell. -/
def subplotCell (cols pos : ℤ) : ℤ × ℤ :=
  (Int.fdiv (pos - 1) cols + 1, (pos - 1) % cols + 1)

/-! ## Basic facts about the embedded operations -/

lemma pydiv_of_ne (a : ℝ) {b : ℝ} (hb : b ≠ 0) : pydiv a b = .ok (a / b) := by
  simp [pydiv, hb]

lemma pydiv_ok {a b q : ℝ} (h : pydiv a b = .ok q) : b ≠ 0 ∧ q = a / b := by
  unfold pydiv at h
  split at h
  · exact absurd h (by simp)
  · exact ⟨by assumption, by simpa using h.symm⟩

/-- Inversion: everything a successful `scalingCore` run guarantees about
the constructed object, including that every divisor it divided by was
nonzero. -/
lemma scalingCore_ok {system : ConstTable} {l m t D v mu : ℝ} {s : scaling}
    (h : scalingCore system l m t D v mu = .ok s) :
    s.system = system ∧ s.mu = mu ∧
    s.m = s.D * s.l ^ 3 ∧ s.P = s.D * s.v ^ 2 ∧ s.e = s.m * s.v ^ 2 ∧
    s.E = s.D * s.v ^ 2 ∧
    system.k_B ≠ 0 ∧ s.E * s.v ≠ 0 ∧ s.t * s.e ≠ 0 ∧ s.e ≠ 0 ∧ s.v ≠ 0 ∧ s.m ≠ 0 ∧
    s.T = mu * system.m_u / system.k_B * s.v ^ 2 ∧
    s.G = system.G * s.D * s.t ^ 2 ∧
    s.Stefan = system.Stefan / (s.E * s.v) ∧
    s.h_P = system.h_P / (s.t * s.e) ∧
    s.k_B = system.k_B / s.e ∧
    s.c = system.c / s.v ∧
    s.m_u = system.m_u / s.m := by
  unfold scalingCore at h
  split at h
  next => exact absurd h (by simp)
  next sl st sv hfv =>
  split at h
  next => exact absurd h (by simp)
  next sl2 sm2 sD hfd =>
  split at h
  next => exact absurd h (by simp)
  next qT hqT =>
  split at h
  next => exact absurd h (by simp)
  next qStefan hqStefan =>
  split at h
  next => exact absurd h (by simp)
  next qhP hqhP =>
  split at h
  next => exact absurd h (by simp)
  next qkB hqkB =>
  split at h
  next => exact absurd h (by simp)
  next qc hqc =>
  split at h
  next => exact absurd h (by simp)
  next qmu hqmu =>
  rw [Except.ok.injEq] at h
  subst h
  obtain ⟨hkB, hT⟩ := pydiv_ok hqT
  obtain ⟨hSd, hS⟩ := pydiv_ok hqStefan
  obtain ⟨hhd, hh⟩ := pydiv_ok hqhP
  obtain ⟨hkd, hk⟩ := pydiv_ok hqkB
  obtain ⟨hcd, hc⟩ := pydiv_ok hqc
  obtain ⟨hmd, hmu'⟩ := pydiv_ok hqmu
  refine ⟨rfl, rfl, rfl, rfl, rfl, rfl, hkB, hSd, hhd, hkd, hcd, hmd,
    ?_, rfl, ?_, ?_, ?_, ?_, ?_⟩
  · rw [hT]
  · rw [hS]
  · rw [hh]
  · rw [hk]
  · rw [hc]
  · rw [hmu']

/-- Elimination: a successful construction pins down a resolved table, a
passed validation, and a successful core run. -/
lemma scalingInitV_fst_ok {sys : SystemArg} {l m t D v mu : ℝ} {vb : ℤ}
    {s : scaling} (h : (scalingInitV sys l m t D v mu vb).1 = .ok s) :
    ∃ tbl, resolveSystem sys = .table tbl ∧ countPos l m t D v = 3 ∧
      scalingCore tbl l m t D v mu = .ok s := by
  unfold scalingInitV at h
  cases hres : resolveSystem sys with
  | table tbl =>
    rw [hres] at h
    simp only [scalingInitResolved] at h
    split at h
    · exact absurd h (by simp)
    · rename_i hc
      split at h
      · exact absurd h (by simp)
      · rename_i s' hcore
        simp only [Prod.fst] at h
        rw [Except.ok.injEq] at h
        subst h
        exact ⟨tbl, rfl, by omega, hcore⟩
  | str nm =>
    exfalso
    rw [hres] at h
    simp only [scalingInitResolved] at h
    repeat' split at h
    all_goals simp at h

/-- Introduction: a resolved table, a passed validation and a successful
core run make the construction succeed, whatever the verbosity. -/
lemma scalingInitV_fst_ok_of {sys : SystemArg} {tbl : ConstTable}
    {l m t D v mu : ℝ} {s : scaling}
    (hres : resolveSystem sys = .table tbl) (hc : countPos l m t D v = 3)
    (hcore : scalingCore tbl l m t D v mu = .ok s) (vb : ℤ) :
    (scalingInitV sys l m t D v mu vb).1 = .ok s := by
  unfold scalingInitV
  rw [hres]
  simp only [scalingInitResolved]
  simp [hc, hcore]

/-- The object a successful run builds, as a function of the filled-in
base scales `sl, st, sv, sD` (and the table and `mu`). -/
noncomputable def mkScaling (tbl : ConstTable) (sl st sv sD mu : ℝ) : scaling :=
  { system := tbl
    l := sl
    m := sD * sl ^ 3
    t := st
    D := sD
    v := sv
    P := sD * sv ^ 2
    e := sD * sl ^ 3 * sv ^ 2
    E := sD * sv ^ 2
    mu := mu
    T := mu * tbl.m_u / tbl.k_B * sv ^ 2
    G := tbl.G * sD * st ^ 2
    Stefan := tbl.Stefan / (sD * sv ^ 2 * sv)
    h_P := tbl.h_P / (st * (sD * sl ^ 3 * sv ^ 2))
    k_B := tbl.k_B / (sD * sl ^ 3 * sv ^ 2)
    c := tbl.c / sv
    m_u := tbl.m_u / (sD * sl ^ 3) }

/-- When both fill-in steps succeed and every remaining divisor is
nonzero, `scalingCore` succeeds and builds `mkScaling`. -/
lemma scalingCore_eq {tbl : ConstTable} {l m t D v mu sl st sv sl2 sm2 sD : ℝ}
    (h1 : fillVelocity l t v = .ok (sl, st, sv))
    (h2 : fillDensity l m D sl = .ok (sl2, sm2, sD))
    (hkB : tbl.k_B ≠ 0)
    (hS : sD * sv ^ 2 * sv ≠ 0)
    (hh : st * (sD * sl2 ^ 3 * sv ^ 2) ≠ 0)
    (hk : sD * sl2 ^ 3 * sv ^ 2 ≠ 0)
    (hc : sv ≠ 0)
    (hm : sD * sl2 ^ 3 ≠ 0) :
    scalingCore tbl l m t D v mu = .ok (mkScaling tbl sl2 st sv sD mu) := by
  simp only [scalingCore, h1, h2, pydiv_of_ne _ hkB, pydiv_of_ne _ hS,
    pydiv_of_ne _ hh, pydiv_of_ne _ hk, pydiv_of_ne _ hc, pydiv_of_ne _ hm,
    mkScaling]

/-- The five 3-subsets of positive inputs on which the constructor
actually completes: two of length/time/velocity, and density — or mass
together with a given length. -/
def goodSubset (l m t D v : ℝ) : Prop :=
  (0 < l ∧ 0 < m ∧ 0 < t ∧ D = 0 ∧ v = 0) ∨
  (0 < l ∧ 0 < m ∧ t = 0 ∧ D = 0 ∧ 0 < v) ∨
  (0 < l ∧ m = 0 ∧ 0 < t ∧ 0 < D ∧ v = 0) ∨
  (0 < l ∧ m = 0 ∧ t = 0 ∧ 0 < D ∧ 0 < v) ∨
  (l = 0 ∧ m = 0 ∧ 0 < t ∧ 0 < D ∧ 0 < v)

lemma countPos_of_goodSubset {l m t D v : ℝ} (h : goodSubset l m t D v) :
    countPos l m t D v = 3 := by
  rcases h with ⟨hl, hm, ht, hD, hv⟩ | ⟨hl, hm, ht, hD, hv⟩ | ⟨hl, hm, ht, hD, hv⟩ |
    ⟨hl, hm, ht, hD, hv⟩ | ⟨hl, hm, ht, hD, hv⟩ <;>
    first
    | (subst hD; subst hv; simp [countPos, hl, hm, ht])
    | (subst ht; subst hD; simp [countPos, hl, hm, hv])
    | (subst hm; subst hv; simp [countPos, hl, ht, hD])
    | (subst hm; subst ht; simp [countPos, hl, hD, hv])
    | (subst hl; subst hm; simp [countPos, ht, hD, hv])

/-- On each of the five supported subsets, the core run succeeds and the
filled-in base scales are all positive and mutually consistent. -/
lemma scalingCore_goodSubset (tbl : ConstTable) (hkB : tbl.k_B ≠ 0)
    {l m t D v : ℝ} (mu : ℝ) (h : goodSubset l m t D v) :
    ∃ sl st sv sD,
      scalingCore tbl l m t D v mu = .ok (mkScaling tbl sl st sv sD mu) ∧
      0 < sl ∧ 0 < st ∧ 0 < sv ∧ 0 < sD ∧ sv = sl / st := by
  rcases h with ⟨hl, hm, ht, hD, hv⟩ | ⟨hl, hm, ht, hD, hv⟩ | ⟨hl, hm, ht, hD, hv⟩ |
    ⟨hl, hm, ht, hD, hv⟩ | ⟨hl, hm, ht, hD, hv⟩
  · -- length, mass, time given
    subst hD; subst hv
    have hl3 : l ^ 3 ≠ 0 := pow_ne_zero _ hl.ne'
    have h1 : fillVelocity l t 0 = .ok (l, t, l / t) := by
      simp [fillVelocity, pydiv, ht.ne']
    have h2 : fillDensity l m 0 l = .ok (l, m, m / l ^ 3) := by
      simp [fillDensity, pydiv, hl3, hm.ne']
    have hsv : 0 < l / t := div_pos hl ht
    have hsD : 0 < m / l ^ 3 := div_pos hm (by positivity)
    exact ⟨l, t, l / t, m / l ^ 3,
      scalingCore_eq h1 h2 hkB (by positivity) (by positivity) (by positivity)
        (by positivity) (by positivity), hl, ht, hsv, hsD, rfl⟩
  · -- length, mass, velocity given
    subst ht; subst hD
    have hl3 : l ^ 3 ≠ 0 := pow_ne_zero _ hl.ne'
    have h1 : fillVelocity l 0 v = .ok (l, l / v, v) := by
      simp [fillVelocity, pydiv, hv, hl.ne', hv.ne']
    have h2 : fillDensity l m 0 l = .ok (l, m, m / l ^ 3) := by
      simp [fillDensity, pydiv, hl3, hm.ne']
    have hst : 0 < l / v := div_pos hl hv
    have hsD : 0 < m / l ^ 3 := div_pos hm (by positivity)
    refine ⟨l, l / v, v, m / l ^ 3,
      scalingCore_eq h1 h2 hkB (by positivity) (by positivity) (by positivity)
        (by positivity) (by positivity), hl, hst, hv, hsD, ?_⟩
    rw [div_div_eq_mul_div, mul_comm l v, mul_div_assoc, div_self hl.ne', mul_one]
  · -- length, time, density given
    subst hm; subst hv
    have h1 : fillVelocity l t 0 = .ok (l, t, l / t) := by
      simp [fillVelocity, pydiv, ht.ne']
    have h2 : fillDensity l 0 D l = .ok (l, D * l ^ 3, D) := by
      simp [fillDensity, hD]
    have hsv : 0 < l / t := div_pos hl ht
    exact ⟨l, t, l / t, D,
      scalingCore_eq h1 h2 hkB (by positivity) (by positivity) (by positivity)
        (by positivity) (by positivity), hl, ht, hsv, hD, rfl⟩
  · -- length, density, velocity given
    subst hm; subst ht
    have h1 : fillVelocity l 0 v = .ok (l, l / v, v) := by
      simp [fillVelocity, pydiv, hv, hl.ne', hv.ne']
    have h2 : fillDensity l 0 D l = .ok (l, D * l ^ 3, D) := by
      simp [fillDensity, hD]
    have hst : 0 < l / v := div_pos hl hv
    refine ⟨l, l / v, v, D,
      scalingCore_eq h1 h2 hkB (by positivity) (by positivity) (by positivity)
        (by positivity) (by positivity), hl, hst, hv, hD, ?_⟩
    rw [div_div_eq_mul_div, mul_comm l v, mul_div_assoc, div_self hl.ne', mul_one]
  · -- time, density, velocity given
    subst hl; subst hm
    have h1 : fillVelocity 0 t v = .ok (v * t, t, v) := by
      simp [fillVelocity, hv]
    have h2 : fillDensity 0 0 D (v * t) = .ok (v * t, 0, D) := by
      simp [fillDensity, hD]
    have hsl : 0 < v * t := mul_pos hv ht
    refine ⟨v * t, t, v, D,
      scalingCore_eq h1 h2 hkB (by positivity) (by positivity) (by positivity)
        (by positivity) (by positivity), hsl, ht, hv, hD, ?_⟩
    rw [mul_div_assoc, div_self ht.ne', mul_one]

lemma table_k_B_ne {tbl : ConstTable} (h : tbl = CGS ∨ tbl = MKS ∨ tbl = SI) :
    tbl.k_B ≠ 0 := by
  rcases h with rfl | rfl | rfl <;> norm_num [CGS, MKS, SI]

/-- A fully evaluated run: `scaling(CGS, l=1, m=1, t=1)`. -/
lemma example_init (vb : ℤ) :
    (scalingInitV (.table CGS) 1 1 1 0 0 2.4 vb).1 =
      .ok (mkScaling CGS 1 1 1 1 2.4) := by
  have hkB : CGS.k_B ≠ 0 := by norm_num [CGS]
  have h1 : fillVelocity 1 1 0 = .ok (1, 1, 1) := by
    norm_num [fillVelocity, pydiv]
  have h2 : fillDensity 1 1 0 1 = .ok (1, 1, 1) := by
    norm_num [fillDensity, pydiv]
  have hcore : scalingCore CGS 1 1 1 0 0 2.4 = .ok (mkScaling CGS 1 1 1 1 2.4) :=
    scalingCore_eq h1 h2 hkB (by norm_num) (by norm_num) (by norm_num)
      (by norm_num) (by norm_num)
  exact scalingInitV_fst_ok_of
    (show resolveSystem (.table CGS) = .table CGS from rfl)
    (by norm_num [countPos]) hcore vb

/-! ## The claims -/

/-- C1 (amended): for every constants table in {CGS, MKS, SI} and each of
the five supported choices of exactly 3 strictly positive base scales (the
other two zero) — {length, mass, time}, {length, mass, velocity},
{length, time, density}, {length, density, velocity},
{time, density, velocity} — the constructor succeeds and the five stored
base scales are strictly positive and satisfy the defining relations
`velocity = length/time` and `density = mass/length³`. -/
theorem scaling_consistency_supported (tbl : ConstTable)
    (htbl : tbl = CGS ∨ tbl = MKS ∨ tbl = SI) (l m t D v mu : ℝ) (vb : ℤ)
    (h : goodSubset l m t D v) :
    ∃ s : scaling, (scalingInitV (.table tbl) l m t D v mu vb).1 = .ok s ∧
      0 < s.l ∧ 0 < s.m ∧ 0 < s.t ∧ 0 < s.D ∧ 0 < s.v ∧
      s.v = s.l / s.t ∧ s.D = s.m / s.l ^ 3 := by
  obtain ⟨sl, st, sv, sD, hcore, hsl, hst, hsv, hsD, hrel⟩ :=
    scalingCore_goodSubset tbl (table_k_B_ne htbl) mu h
  refine ⟨mkScaling tbl sl st sv sD mu,
    scalingInitV_fst_ok_of (show resolveSystem (.table tbl) = .table tbl from rfl)
      (countPos_of_goodSubset h) hcore vb,
    hsl, ?_, hst, hsD, hsv, hrel, ?_⟩
  · show 0 < sD * sl ^ 3
    positivity
  · show sD = sD * sl ^ 3 / sl ^ 3
    rw [mul_div_cancel_right₀ _ (pow_ne_zero _ hsl.ne')]

theorem scaling_consistency_supported_witness :
    ∃ s : scaling, (scalingInitV (.table CGS) 1 1 1 0 0 2.4 0).1 = .ok s ∧
      0 < s.l ∧ 0 < s.m ∧ 0 < s.t ∧ 0 < s.D ∧ 0 < s.v ∧
      s.v = s.l / s.t ∧ s.D = s.m / s.l ^ 3 :=
  scaling_consistency_supported CGS (Or.inl rfl) 1 1 1 0 0 2.4 0
    (Or.inl ⟨by norm_num, by norm_num, by norm_num, rfl, rfl⟩)

/-- C1 counterexample: the 3-subset {length, mass, density}
(`l = m = D = 1`, `t = v = 0`) has exactly 3 strictly positive inputs, yet
the constructor raises `ZeroDivisionError` at `self.v = l/t` instead of
reproducing the remaining two quantities. -/
theorem scaling_lmD_zero_division :
    countPos 1 1 0 1 0 = 3 ∧
      (scalingInitV (.table CGS) 1 1 0 1 0 2.4 0).1 =
        .error "ZeroDivisionError" := by
  refine ⟨by norm_num [countPos], ?_⟩
  have h1 : fillVelocity 1 0 0 = .error "ZeroDivisionError" := by
    norm_num [fillVelocity, pydiv]
  have hcore : scalingCore CGS 1 1 0 1 0 2.4 = .error "ZeroDivisionError" := by
    simp only [scalingCore, h1]
  unfold scalingInitV
  simp only [resolveSystem, scalingInitResolved]
  have hc : countPos 1 1 0 1 0 = 3 := by norm_num [countPos]
  simp only [hc, hcore]
  simp

/-- C2: whenever the number of strictly positive base-scale inputs is not
exactly 3 (and the table argument resolved), construction fails with the
validation message naming the count found; in the `Except` model the
failure carries no scale attributes. -/
theorem invalid_count_fails {sys : SystemArg} {tbl : ConstTable}
    (l m t D v mu : ℝ) (vb : ℤ) (hres : resolveSystem sys = .table tbl)
    (h : countPos l m t D v ≠ 3) :
    (scalingInitV sys l m t D v mu vb).1 =
      .error (valMsg (countPos l m t D v)) := by
  unfold scalingInitV
  rw [hres]
  simp only [scalingInitResolved]
  simp [h]

theorem invalid_count_fails_witness :
    (scalingInitV (.table CGS) 1 1 1 1 0 2.4 0).1 =
      .error (valMsg (countPos 1 1 1 1 0)) :=
  invalid_count_fails 1 1 1 1 0 2.4 0 rfl (by norm_num [countPos])

/-- C3: every successful construction stores exactly the source's rescaled
constants: `G = table.G·D·t²`, `Stefan = table.Stefan/(E·v)`,
`h_P = table.h_P/(t·e)`, `k_B = table.k_B/e`, `c = table.c/v`,
`m_u = table.m_u/m`, each in terms of the derived base scales. -/
theorem rescaled_constants_formulas {sys : SystemArg} {l m t D v mu : ℝ}
    {vb : ℤ} {s : scaling}
    (h : (scalingInitV sys l m t D v mu vb).1 = .ok s) :
    s.G = s.system.G * s.D * s.t ^ 2 ∧
    s.Stefan = s.system.Stefan / (s.E * s.v) ∧
    s.h_P = s.system.h_P / (s.t * s.e) ∧
    s.k_B = s.system.k_B / s.e ∧
    s.c = s.system.c / s.v ∧
    s.m_u = s.system.m_u / s.m := by
  obtain ⟨tbl, _, _, hcore⟩ := scalingInitV_fst_ok h
  obtain ⟨hsys, _, _, _, _, _, _, _, _, _, _, _, _, hG, hS, hh, hk, hc, hm⟩ :=
    scalingCore_ok hcore
  rw [hsys]
  exact ⟨hG, hS, hh, hk, hc, hm⟩

theorem rescaled_constants_formulas_witness :
    ∃ s : scaling, (scalingInitV (.table CGS) 1 1 1 0 0 2.4 0).1 = .ok s ∧
      s.G = s.system.G * s.D * s.t ^ 2 ∧
      s.Stefan = s.system.Stefan / (s.E * s.v) ∧
      s.h_P = s.system.h_P / (s.t * s.e) ∧
      s.k_B = s.system.k_B / s.e ∧
      s.c = s.system.c / s.v ∧
      s.m_u = s.system.m_u / s.m :=
  ⟨mkScaling CGS 1 1 1 1 2.4, example_init 0,
    rescaled_constants_formulas (example_init 0)⟩

/-- C4: round-trip — in every successful construction each rescaled
constant times its scale-factor combination reproduces the original table
constant; in particular `Boltzmann' × energy = table.k_B`. -/
theorem rescaled_constants_roundtrip {sys : SystemArg} {l m t D v mu : ℝ}
    {vb : ℤ} {s : scaling}
    (h : (scalingInitV sys l m t D v mu vb).1 = .ok s) :
    s.k_B * s.e = s.system.k_B ∧ s.c * s.v = s.system.c ∧
    s.h_P * (s.t * s.e) = s.system.h_P ∧
    s.Stefan * (s.E * s.v) = s.system.Stefan ∧
    s.m_u * s.m = s.system.m_u ∧
    s.G / (s.D * s.t ^ 2) = s.system.G := by
  obtain ⟨tbl, _, _, hcore⟩ := scalingInitV_fst_ok h
  obtain ⟨hsys, _, _, _, _, hE, _, hEd, htd, hed, hvd, hmd, _, hG, hS, hh, hk,
    hc, hm⟩ := scalingCore_ok hcore
  rw [hsys]
  have hD0 : s.D ≠ 0 := by
    intro hD
    apply hEd
    rw [hE, hD]
    ring
  have ht0 : s.t ≠ 0 := by
    intro h'
    apply htd
    rw [h']
    ring
  refine ⟨?_, ?_, ?_, ?_, ?_, ?_⟩
  · rw [hk, div_mul_cancel₀ _ hed]
  · rw [hc, div_mul_cancel₀ _ hvd]
  · rw [hh, div_mul_cancel₀ _ htd]
  · rw [hS, div_mul_cancel₀ _ hEd]
  · rw [hm, div_mul_cancel₀ _ hmd]
  · rw [hG, mul_assoc, mul_div_assoc,
      div_self (mul_ne_zero hD0 (pow_ne_zero _ ht0)), mul_one]

theorem rescaled_constants_roundtrip_witness :
    ∃ s : scaling, (scalingInitV (.table CGS) 1 1 1 0 0 2.4 0).1 = .ok s ∧
      s.k_B * s.e = s.system.k_B ∧ s.c * s.v = s.system.c ∧
      s.h_P * (s.t * s.e) = s.system.h_P ∧
      s.Stefan * (s.E * s.v) = s.system.Stefan ∧
      s.m_u * s.m = s.system.m_u ∧
      s.G / (s.D * s.t ^ 2) = s.system.G :=
  ⟨mkScaling CGS 1 1 1 1 2.4, example_init 0,
    rescaled_constants_roundtrip (example_init 0)⟩

/-- C5: in every successfully constructed object the stored mass scale
equals `density × length³` — the canonical recompute of line 125 makes
density and length the authoritative pair. -/
theorem mass_recomputed_canonically {sys : SystemArg} {l m t D v mu : ℝ}
    {vb : ℤ} {s : scaling}
    (h : (scalingInitV sys l m t D v mu vb).1 = .ok s) :
    s.m = s.D * s.l ^ 3 := by
  obtain ⟨tbl, _, _, hcore⟩ := scalingInitV_fst_ok h
  exact (scalingCore_ok hcore).2.2.1

theorem mass_recomputed_canonically_witness :
    ∃ s : scaling, (scalingInitV (.table CGS) 1 1 1 0 0 2.4 0).1 = .ok s ∧
      s.m = s.D * s.l ^ 3 :=
  ⟨mkScaling CGS 1 1 1 1 2.4, example_init 0,
    mass_recomputed_canonically (example_init 0)⟩

/-- C7 (amended): the constructor's table-name resolution accepts a table
object directly, and exactly the all-lowercase and all-uppercase names
`"cgs"`/`"CGS"`, `"mks"`/`"MKS"`, `"si"`/`"SI"`, mapped to the
corresponding tables; it is not case-insensitive beyond those six exact
spellings. -/
theorem table_name_resolution :
    resolveSystem (.str "cgs") = .table CGS ∧
    resolveSystem (.str "CGS") = .table CGS ∧
    resolveSystem (.str "mks") = .table MKS ∧
    resolveSystem (.str "MKS") = .table MKS ∧
    resolveSystem (.str "si") = .table SI ∧
    resolveSystem (.str "SI") = .table SI ∧
    ∀ tbl : ConstTable, resolveSystem (.table tbl) = .table tbl :=
  ⟨rfl, rfl, rfl, rfl, rfl, rfl, fun _ => rfl⟩

/-- C7 counterexample: the capitalization `"Cgs"` is not mapped to the CGS
table — resolution leaves the string unchanged, and a construction using
it fails (`AttributeError` at the first attribute access) instead of using
CGS. -/
theorem mixed_case_name_unresolved :
    resolveSystem (.str "Cgs") = .str "Cgs" ∧
      (scalingInitV (.str "Cgs") 1 1 1 0 0 2.4 1).1 = .error attrErr := by
  have hres : resolveSystem (.str "Cgs") = .str "Cgs" := rfl
  refine ⟨hres, ?_⟩
  unfold scalingInitV
  rw [hres]
  simp only [scalingInitResolved]
  norm_num

/-- C9: the constructed values are a pure function of the numeric inputs —
in particular the verbosity setting never influences any stored base
scale, derived quantity, or rescaled constant: a construction that
succeeds at one verbosity yields the identical object at every other
verbosity, which only changes the diagnostic lines printed. -/
theorem result_independent_of_verbose {sys : SystemArg} {l m t D v mu : ℝ}
    (vb vb' : ℤ) {s : scaling}
    (h : (scalingInitV sys l m t D v mu vb).1 = .ok s) :
    (scalingInitV sys l m t D v mu vb').1 = .ok s := by
  obtain ⟨tbl, hres, hc, hcore⟩ := scalingInitV_fst_ok h
  exact scalingInitV_fst_ok_of hres hc hcore vb'

theorem result_independent_of_verbose_witness :
    (scalingInitV (.table CGS) 1 1 1 0 0 2.4 5).1 =
      .ok (mkScaling CGS 1 1 1 1 2.4) :=
  result_independent_of_verbose 0 5 (example_init 0)

/-- C10 (amended): on the five supported 3-subsets of positive inputs
(two of length/time/velocity plus density, or mass plus a given length
and one of time/velocity), every division performed during construction
has a nonzero divisor and the run completes without `ZeroDivisionError`. -/
theorem no_zero_division_supported (tbl : ConstTable)
    (htbl : tbl = CGS ∨ tbl = MKS ∨ tbl = SI) (l m t D v mu : ℝ) (vb : ℤ)
    (h : goodSubset l m t D v) :
    ∃ s : scaling, (scalingInitV (.table tbl) l m t D v mu vb).1 = .ok s ∧
      s.e ≠ 0 ∧ s.v ≠ 0 ∧ s.m ≠ 0 ∧ s.t * s.e ≠ 0 ∧ s.E * s.v ≠ 0 := by
  obtain ⟨sl, st, sv, sD, hcore, hsl, hst, hsv, hsD, hrel⟩ :=
    scalingCore_goodSubset tbl (table_k_B_ne htbl) mu h
  obtain ⟨_, _, _, _, _, _, _, hEd, htd, hed, hvd, hmd, _⟩ := scalingCore_ok hcore
  exact ⟨mkScaling tbl sl st sv sD mu,
    scalingInitV_fst_ok_of (show resolveSystem (.table tbl) = .table tbl from rfl)
      (countPos_of_goodSubset h) hcore vb, hed, hvd, hmd, htd, hEd⟩

theorem no_zero_division_supported_witness :
    ∃ s : scaling, (scalingInitV (.table CGS) 0 0 1 1 1 2.4 0).1 = .ok s ∧
      s.e ≠ 0 ∧ s.v ≠ 0 ∧ s.m ≠ 0 ∧ s.t * s.e ≠ 0 ∧ s.E * s.v ≠ 0 :=
  no_zero_division_supported CGS (Or.inl rfl) 0 0 1 1 1 2.4 0
    (Or.inr (Or.inr (Or.inr (Or.inr
      ⟨rfl, rfl, by norm_num, by norm_num, by norm_num⟩))))

/-- C10 counterexample: the input `l = t = v = 1` (`m = D = 0`) passes the
3-of-5 validation, yet the derived density and energy scales collapse to
zero and the Stefan-constant rescaling divides by zero. -/
theorem scaling_ltv_zero_division :
    countPos 1 0 1 0 1 = 3 ∧
      (scalingInitV (.table CGS) 1 0 1 0 1 2.4 0).1 =
        .error "ZeroDivisionError" := by
  refine ⟨by norm_num [countPos], ?_⟩
  have h1 : fillVelocity 1 1 1 = .ok (1, 1, 1) := by
    norm_num [fillVelocity, pydiv]
  have h2 : fillDensity 1 0 0 1 = .ok (1, 0, 0) := by
    norm_num [fillDensity, pydiv]
  have hkB : CGS.k_B ≠ 0 := by norm_num [CGS]
  have h3 : pydiv ((2.4 : ℝ) * CGS.m_u) CGS.k_B =
      .ok (2.4 * CGS.m_u / CGS.k_B) := pydiv_of_ne _ hkB
  have h4 : pydiv CGS.Stefan ((0 : ℝ) * 1 ^ 2 * 1) =
      .error "ZeroDivisionError" := by
    norm_num [pydiv]
  have hcore : scalingCore CGS 1 0 1 0 1 2.4 = .error "ZeroDivisionError" := by
    simp only [scalingCore, h1, h2, h3, h4]
  unfold scalingInitV
  simp only [resolveSystem, scalingInitResolved]
  have hc : countPos 1 0 1 0 1 = 3 := by norm_num [countPos]
  simp only [hc, hcore]
  simp

/-! ## Facts about the display helpers -/

lemma buildPanels_str (s : String) (n : ℕ) :
    buildPanels (.str s) n =
      .ok ((List.range n).map fun i => ⟨1 + i, i, .str s⟩) := by
  induction n with
  | zero => rfl
  | succ k ih =>
    rw [buildPanels, ih]
    simp [panelTitle, List.range_succ]

lemma buildPanels_list (xs : List String) (n : ℕ) :
    buildPanels (.list xs) n =
      .ok ((List.range n).map fun i => ⟨1 + i, i, .list xs⟩) := by
  induction n with
  | zero => rfl
  | succ k ih =>
    rw [buildPanels, ih]
    simp [panelTitle, List.range_succ]

lemma buildPanels_arr (xs : List String) (n : ℕ) (h : n ≤ xs.length) :
    buildPanels (.arr xs) n =
      .ok ((List.range n).map fun i => ⟨1 + i, i, .str (xs.getD i "")⟩) := by
  induction n with
  | zero => rfl
  | succ k ih =>
    have hk : k < xs.length := lt_of_lt_of_le (Nat.lt_succ_self k) h
    have hsome : xs[k]? = some xs[k] := List.getElem?_eq_getElem hk
    have hgetD : xs.getD k "" = xs[k] := by
      rw [List.getD_eq_getElem?_getD, hsome]
      rfl
    rw [buildPanels, ih (Nat.le_of_lt hk)]
    simp [panelTitle, hsome, hgetD, List.range_succ]

lemma imshowsStack_panels {title : PyVal} {n : ℕ} {ps : List PanelRender}
    (h : buildPanels title n = .ok ps) :
    imshowsStack n title =
      .ok { rows := 1 + Int.fdiv ((n : ℤ) - 1) 3
            cols := min (n : ℤ) 3
            figW := min (n : ℤ) 3 * 5
            figH := (1 + Int.fdiv ((n : ℤ) - 1) 3) * 4
            panels := ps } := by
  rw [imshowsStack, h]

/-- The source's `1+(n-1)//3` equals `⌈n/3⌉` (`//` is floor division). -/
lemma rows_eq_ceil (n : ℕ) :
    1 + Int.fdiv ((n : ℤ) - 1) 3 = ⌈(n : ℚ) / 3⌉ := by
  rw [Int.fdiv_eq_ediv _ (by norm_num : (0 : ℤ) ≤ 3)]
  have h1 : -((n : ℚ) / 3) = ((-(n : ℤ) : ℤ) : ℚ) / ((3 : ℕ) : ℚ) := by
    push_cast
    ring
  have h2 : ⌊-((n : ℚ) / 3)⌋ = -(n : ℤ) / ((3 : ℕ) : ℤ) := by
    rw [h1]
    exact Rat.floor_intCast_div_natCast _ _
  rw [Int.floor_neg] at h2
  have h3 : ((3 : ℕ) : ℤ) = 3 := by norm_num
  rw [h3] at h2
  omega

/-- C6: for every 3-D stack with leading dimension `n ≥ 1`, `imshows` lays
out `⌈n/3⌉` rows and `min(n,3)` columns and renders panel `i` at subplot
position `1+i`; in particular a `(4,10,10)` stack gives a 2×3 grid with
panel 4 (index 3) at position 4 = cell (2,1) and positions 5 and 6 left
blank. -/
theorem imshows_grid_layout (n : ℕ) (hn : 1 ≤ n) (s : String) :
    ∃ r : StackRender, imshowsStack n (.str s) = .ok r ∧
      r.rows = ⌈(n : ℚ) / 3⌉ ∧
      r.cols = min (n : ℤ) 3 ∧
      r.panels = (List.range n).map (fun i => ⟨1 + i, i, .str s⟩) ∧
      (n = 4 →
        r.rows = 2 ∧ r.cols = 3 ∧
        (∃ p ∈ r.panels, p.panel = 3 ∧ p.pos = 4 ∧
          subplotCell r.cols (p.pos : ℤ) = (2, 1)) ∧
        ∀ p ∈ r.panels, p.pos ≠ 5 ∧ p.pos ≠ 6) := by
  refine ⟨_, imshowsStack_panels (buildPanels_str s n), rows_eq_ceil n, rfl,
    rfl, ?_⟩
  rintro rfl
  have hr4 : (1 : ℤ) + Int.fdiv (((4 : ℕ) : ℤ) - 1) 3 = 2 := by decide
  have hc4 : min (((4 : ℕ) : ℤ)) 3 = 3 := by decide
  have hs4 : subplotCell (min (((4 : ℕ) : ℤ)) 3) (((1 + 3 : ℕ) : ℤ)) = (2, 1) := by
    decide
  refine ⟨hr4, hc4,
    ⟨⟨1 + 3, 3, .str s⟩, List.mem_map_of_mem _ (by decide), rfl, by norm_num,
      hs4⟩, ?_⟩
  intro p hp
  simp only [List.mem_map, List.mem_range] at hp
  obtain ⟨i, hi, rfl⟩ := hp
  refine ⟨?_, ?_⟩ <;> show 1 + i ≠ _ <;> omega

theorem imshows_grid_layout_witness :
    ∃ r : StackRender, imshowsStack 4 (.str "density") = .ok r ∧
      r.rows = ⌈(4 : ℚ) / 3⌉ ∧
      r.cols = min (4 : ℤ) 3 ∧
      r.panels = (List.range 4).map (fun i => ⟨1 + i, i, .str "density"⟩) ∧
      (4 = 4 →
        r.rows = 2 ∧ r.cols = 3 ∧
        (∃ p ∈ r.panels, p.panel = 3 ∧ p.pos = 4 ∧
          subplotCell r.cols (p.pos : ℤ) = (2, 1)) ∧
        ∀ p ∈ r.panels, p.pos ≠ 5 ∧ p.pos ≠ 6) :=
  imshows_grid_layout 4 (by norm_num) "density"

/-- C8 (amended): the title argument may be a single string, applied to
every panel, or a NumPy string array, in which case panel `i` receives
element `i`; other sequence types (e.g. Python lists) are not indexed. -/
theorem imshows_title_dispatch (n : ℕ) (s : String) (xs : List String)
    (h : n ≤ xs.length) :
    (∃ r : StackRender, imshowsStack n (.str s) = .ok r ∧
        ∀ p ∈ r.panels, p.title = .str s) ∧
    (∃ r : StackRender, imshowsStack n (.arr xs) = .ok r ∧
        r.panels = (List.range n).map fun i => ⟨1 + i, i, .str (xs.getD i "")⟩) := by
  constructor
  · refine ⟨_, imshowsStack_panels (buildPanels_str s n), ?_⟩
    intro p hp
    simp only [List.mem_map, List.mem_range] at hp
    obtain ⟨i, _, rfl⟩ := hp
    rfl
  · exact ⟨_, imshowsStack_panels (buildPanels_arr xs n h), rfl⟩

theorem imshows_title_dispatch_witness :
    (∃ r : StackRender, imshowsStack 2 (.str "x") = .ok r ∧
        ∀ p ∈ r.panels, p.title = .str "x") ∧
    (∃ r : StackRender, imshowsStack 2 (.arr ["a", "b"]) = .ok r ∧
        r.panels =
          (List.range 2).map fun i => ⟨1 + i, i, .str (["a", "b"].getD i "")⟩) :=
  imshows_title_dispatch 2 "x" ["a", "b"] (by norm_num)

/-- C8 counterexample: a Python list of per-panel titles is a sequence,
but `imshows` indexes only NumPy arrays — with `title = ["a", "b"]` both
panels receive the whole list, and panel 1's title is not `"b"`. -/
theorem list_title_not_indexed :
    imshowsStack 2 (.list ["a", "b"]) =
      .ok { rows := 1, cols := 2, figW := 10, figH := 4,
            panels := [{ pos := 1, panel := 0, title := .list ["a", "b"] },
                       { pos := 2, panel := 1, title := .list ["a", "b"] }] } ∧
    PyVal.list ["a", "b"] ≠ .str "b" := by
  constructor
  · rw [imshowsStack_panels (buildPanels_list ["a", "b"] 2), Except.ok.injEq]
    decide
  · decide
